import Mathlib

/-
Shallow embedding of the pesticide-registration scraper core
(src/app.py, class CustomCrawler).

The crawler drives a browser through effectful primitives (click, wait,
query, inner_text).  Each primitive either succeeds with a value or
raises; we model every primitive outcome as an explicit
value of type Except Err _, supplied by an environment structure, and
translate the Python control flow (try/except, loops, early break)
directly on those outcomes.  Python str.strip() is modelled by
String.trim and Python int() on the page-indicator text by parsePageNum.
-/

set_option autoImplicit false

namespace PesticideScraper

/-- An exception raised by a browser primitive or by int() conversion. -/
inductive Err where
  | timeout
  | valueError
  | fault
deriving DecidableEq, Repr

/-- One {ingredient, content} pair of the ingredient sub-table. -/
structure Ingredient where
  ingredient : String
  content : String
deriving DecidableEq, Repr

/-- The record built by scrape_item: eight labelled fields plus the
ingredient pairs, in the order the code fills the dict. -/
structure ResultRecord where
  registered_number : String
  first_prove : String
  period : String
  product_name : String
  toxicity : String
  formulation : String
  registration_certificate_holder : String
  remark : String
  active_ingredients : List Ingredient
deriving DecidableEq, Repr

/-- Outcome of inner_text() on one table cell. -/
abbrev CellE := Except Err String

/-- Outcome of fetching one row of the ingredient table: the td query or
a later inner_text may raise, otherwise the row yields its cell texts. -/
abbrev RowE := Except Err (List CellE)

/-- The detail-overlay iframe as the code observes it:
labelSiblingText label is the outcome of
locator(xpath contains label / following-sibling td).first.inner_text(),
and table2Rows is the outcome of locator(table nth-of-type 2 tr).all(). -/
structure Frame where
  labelSiblingText : String → Except Err String
  table2Rows : Except Err (List RowE)

/-- get_table_data (app.py lines 83-85): read the sibling-cell text for a
label and strip it.  The method has no handler of its own, so a failing
lookup propagates to the caller. -/
def get_table_data (frame : Frame) (label : String) : Except Err String :=
  match frame.labelSiblingText label with
  | .ok t => .ok t.trim
  | .error e => .error e

/-- The ingredient loop of scrape_item (app.py lines 64-72) on the rows
remaining after the header skip: fetch the td cells of each row, and when
there are exactly two, append the pair of stripped inner texts; rows with
any other cell count are skipped.  Any raised error aborts the loop. -/
def ingredient_loop : List RowE → Except Err (List Ingredient)
  | [] => .ok []
  | r :: rs =>
    match r with
    | .error e => .error e
    | .ok cols =>
      if h : cols.length = 2 then
        match cols.get ⟨0, by omega⟩ with
        | .error e => .error e
        | .ok ingredient =>
          match cols.get ⟨1, by omega⟩ with
          | .error e => .error e
          | .ok content =>
            match ingredient_loop rs with
            | .error e => .error e
            | .ok rest =>
              .ok ({ ingredient := ingredient.trim, content := content.trim } :: rest)
      else ingredient_loop rs

/-- The ingredient-table parse of scrape_item (app.py lines 62-73):
rows[2:] skips the two header rows, then ingredient_loop processes the
rest in encounter order. -/
def extract_ingredients (rows : List RowE) : Except Err (List Ingredient) :=
  ingredient_loop (rows.drop 2)

/-- Environment for one scrape_item call: the outcome of each browser
primitive the method performs, in program order. -/
structure ItemEnv where
  clickLink : Except Err Unit
  waitOverlay : Except Err Unit
  frame : Frame
  clickClose : Except Err Unit
  waitHidden : Except Err Unit

/-- The body of the try block of scrape_item (app.py lines 46-78): click
the row link, wait for the jbox-iframe overlay, read the eight labelled
fields, parse the ingredient table, close the overlay and wait for it to
be hidden.  Any raised error propagates. -/
def scrape_item_body (env : ItemEnv) : Except Err ResultRecord := do
  let _ ← env.clickLink
  let _ ← env.waitOverlay
  let frame := env.frame
  let registered_number ← get_table_data frame "Registered number："
  let first_prove ← get_table_data frame "FirstProve："
  let period ← get_table_data frame "Period："
  let product_name ← get_table_data frame "ProductName："
  let toxicity ← get_table_data frame "Toxicity："
  let formulation ← get_table_data frame "Formulation："
  let registration_certificate_holder ← get_table_data frame "Registration certificate holder："
  let remark ← get_table_data frame "Remark："
  let rows ← frame.table2Rows
  let active_ingredients ← extract_ingredients rows
  let _ ← env.clickClose
  let _ ← env.waitHidden
  pure { registered_number := registered_number, first_prove := first_prove,
         period := period, product_name := product_name, toxicity := toxicity,
         formulation := formulation,
         registration_certificate_holder := registration_certificate_holder,
         remark := remark, active_ingredients := active_ingredients }

/-- scrape_item (app.py lines 45-81): the try body wrapped in the
except-Exception handler, which logs and returns None. -/
def scrape_item (env : ItemEnv) : Except Err (Option ResultRecord) :=
  match scrape_item_body env with
  | .ok data => .ok (some data)
  | .error _ => .ok none

/-- The value scrape_item returns: the record on success of its body,
None when the body raised. -/
def itemRes (env : ItemEnv) : Option ResultRecord :=
  match scrape_item_body env with
  | .ok data => some data
  | .error _ => none

/-- Environment for one scrape_page call: for each row position i,
whether wait_for_selector on the row-link selector succeeded within its
5000 ms bound (the wait sits in a bare try/except, so any raise counts
as absent), and the ItemEnv the scrape_item call at position i runs in. -/
structure PageEnv where
  rowPresent : Nat → Bool
  itemEnv : Nat → ItemEnv

/-- The body of the for-loop of scrape_page (app.py lines 90-104) over
the remaining row positions: stop at the first position whose link wait
fails, otherwise scrape the item, count and keep it when truthy, skip it
when None. -/
def scrape_page_loop (env : PageEnv) : List Nat → Except Err (Nat × List ResultRecord)
  | [] => .ok (0, [])
  | i :: rest =>
    if env.rowPresent i then
      match scrape_item (env.itemEnv i) with
      | .error e => .error e
      | .ok (some data) =>
        match scrape_page_loop env rest with
        | .error e => .error e
        | .ok (c, ds) => .ok (c + 1, data :: ds)
      | .ok none => scrape_page_loop env rest
    else .ok (0, [])

/-- scrape_page (app.py lines 87-107): iterate row positions
range(2, 22), i.e. positions 2 through 21, returning
(items_scraped, page_data). -/
def scrape_page (env : PageEnv) : Except Err (Nat × List ResultRecord) :=
  scrape_page_loop env (List.range' 2 20)

/-- The row positions scrape_page actually reaches: the prefix of the
window 2..21 on which the row link was present. -/
def presentRows (env : PageEnv) : List Nat :=
  (List.range' 2 20).takeWhile env.rowPresent

/-- The record obtained at row position i, when scrape_item succeeds. -/
def succAt (env : PageEnv) (i : Nat) : Option ResultRecord :=
  itemRes (env.itemEnv i)

/-- The records of the rows scrape_page keeps: successful items of the
present prefix, in order. -/
def pageSuccess (env : PageEnv) : List ResultRecord :=
  (presentRows env).filterMap (succAt env)

/-- The DOM state of the next-page link: missing, present but carrying
the disabled class, or present and enabled. -/
inductive NextLinkState where
  | absent
  | disabled
  | enabled
deriving DecidableEq, Repr

/-- Whether query_selector with the selector
a:has-text(下一页):not(.disabled) finds an element: only an enabled link
matches, since the :not(.disabled) filter excludes a disabled one. -/
def queryNextMatches : NextLinkState → Bool
  | .enabled => true
  | .absent => false
  | .disabled => false

/-- Environment for one next_page call: the outcome of each primitive in
program order, with the DOM state of the next-page link and the text of
the active-page indicator when it is found. -/
structure NextEnv where
  waitPagination : Except Err Unit
  nextLink : Except Err NextLinkState
  clickNext : Except Err Unit
  waitLoad : Except Err Unit
  queryIndicator : Except Err (Option String)

/-- An ASCII whitespace character, as stripped by Python int(). -/
def isSpaceChar (c : Char) : Bool :=
  c = ' ' || c = '\t' || c = '\n' || c = '\r'

/-- Parse a nonempty run of decimal digits into a natural number;
anything else is a failure. -/
def parseUnsignedAux : List Char → Nat → Option Nat
  | [], acc => some acc
  | c :: cs, acc =>
    if c.isDigit then parseUnsignedAux cs (acc * 10 + (c.toNat - 48)) else none

/-- Parse a nonempty all-digit character list. -/
def parseUnsigned : List Char → Option Nat
  | [] => none
  | cs => parseUnsignedAux cs 0

/-- Drop surrounding whitespace from a character list. -/
def trimChars (cs : List Char) : List Char :=
  ((cs.dropWhile isSpaceChar).reverse.dropWhile isSpaceChar).reverse

/-- Python int() applied to the inner text of the active-page
indicator: strip surrounding whitespace and parse an optionally signed
decimal integer; anything else raises ValueError (modelled as none). -/
def parsePageNum (s : String) : Option Int :=
  match trimChars s.data with
  | '-' :: rest => (parseUnsigned rest).map fun n => -(n : Int)
  | '+' :: rest => (parseUnsigned rest).map fun n => (n : Int)
  | cs => (parseUnsigned cs).map fun n => (n : Int)

/-- The try body of next_page (app.py lines 110-143), paired with
whether the click on the next-page link was reached: wait for the
pagination region, query the non-disabled next-page link (returning
False with no click when it is absent or disabled), click it, wait for
load, then read the active-page indicator and return True only when its
parsed value strictly exceeds current_page, in which case current_page
becomes that value. -/
def next_page_run (cur : Int) (env : NextEnv) : Except Err (Bool × Int) × Bool :=
  match env.waitPagination with
  | .error e => (.error e, false)
  | .ok _ =>
    match env.nextLink with
    | .error e => (.error e, false)
    | .ok linkState =>
      if queryNextMatches linkState then
        match env.clickNext with
        | .error e => (.error e, true)
        | .ok _ =>
          match env.waitLoad with
          | .error e => (.error e, true)
          | .ok _ =>
            match env.queryIndicator with
            | .error e => (.error e, true)
            | .ok none => (.ok (false, cur), true)
            | .ok (some txt) =>
              match parsePageNum txt with
              | none => (.error .valueError, true)
              | some n =>
                if n > cur then (.ok (true, n), true)
                else (.ok (false, cur), true)
      else (.ok (false, cur), false)

/-- next_page (app.py lines 109-147): the try body wrapped in the
except-Exception handler, which logs and returns False leaving
current_page unchanged.  Result: ((advanced, new current_page), whether
the click was reached). -/
def next_page (cur : Int) (env : NextEnv) : (Bool × Int) × Bool :=
  match next_page_run cur env with
  | (.ok r, clicked) => (r, clicked)
  | (.error _, clicked) => ((false, cur), clicked)

/-- The mutable crawler state the run loop threads: total_items_scraped
and current_page from the CustomCrawler instance, all_data from the
local accumulator, and the messages handed to the progress callback
when one is supplied. -/
structure RunState where
  total_items_scraped : Nat
  allData : List ResultRecord
  current_page : Int
  msgs : List String
deriving DecidableEq, Repr

/-- The f-string handed to progress_callback (app.py line 30). -/
def progressMsg (cur : Int) (total : Nat) : String :=
  "Scraped page " ++ toString cur ++ ", total items: " ++ toString total

/-- Environment for one iteration of the run loop: the PageEnv of the
scrape_page call and the NextEnv of the next_page call. -/
structure RunEnvStep where
  pageEnv : PageEnv
  nextEnv : NextEnv

/-- The while-True loop of run (app.py lines 24-34), with explicit fuel
bounding how many iterations the model unfolds (none = the bound was
reached before the loop exited): scrape the current page, extend
all_data, add items_scraped to the total, record the progress message,
then call next_page and either continue with the updated current_page or
exit the loop.  A raise inside the loop propagates. -/
def run_loop (steps : Nat → RunEnvStep) : Nat → Nat → RunState → Option (Except Err RunState)
  | 0, _, _ => none
  | fuel + 1, k, st =>
    match scrape_page (steps k).pageEnv with
    | .error e => some (.error e)
    | .ok (items, ds) =>
      let st2 : RunState :=
        { total_items_scraped := st.total_items_scraped + items,
          allData := st.allData ++ ds,
          current_page := st.current_page,
          msgs := st.msgs ++ [progressMsg st.current_page (st.total_items_scraped + items)] }
      match next_page st.current_page (steps k).nextEnv with
      | ((true, cur2), _) => run_loop steps fuel (k + 1) { st2 with current_page := cur2 }
      | ((false, _), _) => some (.ok st2)

/-- The state of a fresh CustomCrawler at the start of run:
total_items_scraped = 0, current_page = 1 (app.py lines 13-14), empty
accumulator and no messages yet. -/
def initRunState : RunState :=
  { total_items_scraped := 0, allData := [], current_page := 1, msgs := [] }

/-- What happened to the browser session by the time run returned:
whether the explicit await browser.close() on the normal path ran, and
whether the async-with async_playwright() block was exited.  Exiting
that block stops the Playwright driver, and stopping the driver closes
every browser it launched, so either flag releases the session. -/
structure RunTrace where
  browserCloseCalled : Bool
  playwrightExited : Bool
deriving DecidableEq, Repr

/-- The browser session is released: either browser.close() ran or the
async_playwright context was exited (which closes its browsers). -/
def browserReleased (t : RunTrace) : Bool :=
  t.browserCloseCalled || t.playwrightExited

/-- Environment for one run call: outcomes of page.goto and of
search_and_submit (fill, submit click, networkidle wait, lumped), the
per-iteration environments, and the fuel bounding the model. -/
structure RunEnv where
  fuel : Nat
  gotoRes : Except Err Unit
  searchRes : Except Err Unit
  steps : Nat → RunEnvStep

/-- run (app.py lines 16-38): inside the async-with playwright block,
launch and navigate, submit the search, then the accumulation loop;
return all_data.  On the normal path browser.close() runs before the
block is exited; on a raise the block is exited without the explicit
close and the error propagates.  none = the fuel bound was reached. -/
def run (env : RunEnv) : Option (Except Err (List ResultRecord × RunState) × RunTrace) :=
  match env.gotoRes with
  | .error e => some (.error e, { browserCloseCalled := false, playwrightExited := true })
  | .ok _ =>
    match env.searchRes with
    | .error e => some (.error e, { browserCloseCalled := false, playwrightExited := true })
    | .ok _ =>
      match run_loop env.steps env.fuel 0 initRunState with
      | none => none
      | some (.error e) =>
        some (.error e, { browserCloseCalled := false, playwrightExited := true })
      | some (.ok st) =>
        some (.ok (st.allData, st), { browserCloseCalled := true, playwrightExited := true })

/-- Spec-side view of an ingredient table whose every row and cell read
succeeds: each row is just its list of cell texts. -/
def pureRows (l : List (List String)) : List RowE :=
  l.map fun cs => .ok (cs.map Except.ok)

/-- Spec-side description of one ingredient row: a row with exactly two
cells yields the pair of its trimmed cell texts, any other row yields
nothing. -/
def rowPair : List String → Option Ingredient
  | [a, b] => some { ingredient := a.trim, content := b.trim }
  | _ => none

/-- Follows the spec words for the Run Controller loop (spec section 4.6
and its interface section): scrape the current page via the Page
Scraper, append its records and increment the running total, notify
progress exactly once with the literal message
"Scraped page {current_page}, total items: {total}", then call
Paginator.advance; the loop terminates exactly when advance returns
false, yielding the accumulated records, the total, the final page index
and the notification log. -/
def runLoopSpec (steps : Nat → RunEnvStep) :
    Nat → Nat → Int → Nat → List ResultRecord → List String →
    Option (Except Err (List ResultRecord × Nat × Int × List String))
  | 0, _, _, _, _, _ => none
  | fuel + 1, k, cur, total, recs, msgs =>
    match scrape_page (steps k).pageEnv with
    | .error e => some (.error e)
    | .ok (c, ds) =>
      let msgs2 := msgs ++ ["Scraped page " ++ toString cur ++ ", total items: " ++ toString (total + c)]
      match next_page cur (steps k).nextEnv with
      | ((true, cur2), _) => runLoopSpec steps fuel (k + 1) cur2 (total + c) (recs ++ ds) msgs2
      | ((false, _), _) => some (.ok (recs ++ ds, total + c, cur, msgs2))

/- Concrete inputs used by counterexamples and witnesses. -/

/-- An overlay frame on which every label lookup times out and the
ingredient table reads empty. -/
def frameNoLabel : Frame :=
  { labelSiblingText := fun _ => .error .timeout, table2Rows := .ok [] }

/-- An item environment whose very first primitive, the row-link click,
raises. -/
def itemEnvFault : ItemEnv :=
  { clickLink := .error .timeout, waitOverlay := .ok (), frame := frameNoLabel,
    clickClose := .ok (), waitHidden := .ok () }

/-- An item environment that reaches the overlay fine but where the
first field label has no matching element. -/
def itemEnvNoLabel : ItemEnv :=
  { clickLink := .ok (), waitOverlay := .ok (), frame := frameNoLabel,
    clickClose := .ok (), waitHidden := .ok () }

/-- A paginator environment on which every primitive succeeds and the
active-page indicator reads 3. -/
def envJump : NextEnv :=
  { waitPagination := .ok (), nextLink := .ok .enabled, clickNext := .ok (),
    waitLoad := .ok (), queryIndicator := .ok (some "3") }

/-- A paginator environment whose pagination-region wait raises. -/
def envPagFault : NextEnv :=
  { waitPagination := .error .timeout, nextLink := .ok .enabled, clickNext := .ok (),
    waitLoad := .ok (), queryIndicator := .ok (some "2") }

/-- A paginator environment whose next-page link carries the disabled
class. -/
def envDisabled : NextEnv :=
  { waitPagination := .ok (), nextLink := .ok .disabled, clickNext := .ok (),
    waitLoad := .ok (), queryIndicator := .ok none }

/-- A result page with no row links at all. -/
def pageEnvEmpty : PageEnv :=
  { rowPresent := fun _ => false, itemEnv := fun _ => itemEnvNoLabel }

/-- An overlay frame on which every lookup succeeds: each field reads a
padded registration number and the ingredient table has two header rows
plus one two-cell data row. -/
def frameOk : Frame :=
  { labelSiblingText := fun _ => .ok " PD123-2020 ",
    table2Rows := .ok (pureRows [["head1"], ["head2"], ["Abamectin", " 95% "]]) }

/-- An item environment on which every primitive succeeds. -/
def itemEnvOk : ItemEnv :=
  { clickLink := .ok (), waitOverlay := .ok (), frame := frameOk,
    clickClose := .ok (), waitHidden := .ok () }

/-- The last-page scenario: row links present at positions 2 through 4,
absent from position 5 on, every present item scraping cleanly. -/
def pageEnvScenario : PageEnv :=
  { rowPresent := fun i => decide (i ≤ 4), itemEnv := fun _ => itemEnvOk }

/-- A run-loop iteration environment: empty page, disabled next link. -/
def stepEnd : RunEnvStep :=
  { pageEnv := pageEnvEmpty, nextEnv := envDisabled }

/-- A run environment that terminates after its single page. -/
def envRunEnd : RunEnv :=
  { fuel := 1, gotoRes := .ok (), searchRes := .ok (), steps := fun _ => stepEnd }

/-- The final state of a run over envRunEnd. -/
def stRunEnd : RunState :=
  { total_items_scraped := 0, allData := [], current_page := 1,
    msgs := ["Scraped page 1, total items: 0"] }

/-- scrape_item always returns the value itemRes computes from its body. -/
theorem scrape_item_eq (env : ItemEnv) : scrape_item env = .ok (itemRes env) := by
  rcases h : scrape_item_body env with e | d <;> simp [scrape_item, itemRes, h]

/-- Claim C3: scrape_item never propagates an exception past its
boundary: it always returns a value, and whenever its body raises it
returns the failure marker None instead. -/
theorem scrape_item_never_raises (env : ItemEnv) :
    (∃ v, scrape_item env = .ok v) ∧
    (∀ e, scrape_item_body env = .error e → scrape_item env = .ok none) := by
  constructor
  · exact ⟨itemRes env, scrape_item_eq env⟩
  · intro e he
    simp [scrape_item, he]

/-- Witness for C3: an item whose row-link click raises yields the
failure marker, not a propagated error. -/
theorem scrape_item_never_raises_check :
    scrape_item_body itemEnvFault = .error .timeout ∧
    scrape_item itemEnvFault = .ok none :=
  ⟨rfl, (scrape_item_never_raises itemEnvFault).2 .timeout rfl⟩

/-- Counterexample to C2 as stated: on a frame with no element matching
the label, get_table_data does not return the empty string; the lookup
failure propagates out of the method. -/
theorem get_table_data_raises_on_missing_label :
    get_table_data frameNoLabel "Remark：" = .error .timeout ∧
    get_table_data frameNoLabel "Remark：" ≠ .ok "" :=
  ⟨rfl, fun h => Except.noConfusion h⟩

/-- Claim C2 (amended): get_table_data returns the trimmed sibling text
when the lookup succeeds, and propagates the failure when it does not
(the method has no handler); the failure is caught only by the
item-level handler, which discards the whole item. -/
theorem get_table_data_propagates_failure :
    (∀ (frame : Frame) (label t : String),
        frame.labelSiblingText label = .ok t →
        get_table_data frame label = .ok t.trim) ∧
    (∀ (frame : Frame) (label : String) (e : Err),
        frame.labelSiblingText label = .error e →
        get_table_data frame label = .error e) ∧
    (∀ (env : ItemEnv) (e : Err),
        env.clickLink = .ok () → env.waitOverlay = .ok () →
        env.frame.labelSiblingText "Registered number：" = .error e →
        scrape_item env = .ok none) := by
  refine ⟨?_, ?_, ?_⟩
  · intro frame label t h
    simp [get_table_data, h]
  · intro frame label e h
    simp [get_table_data, h]
  · intro env e h1 h2 h3
    have hb : scrape_item_body env = .error e := by
      simp [scrape_item_body, h1, h2, get_table_data, h3, Bind.bind, Except.bind]
    simp [scrape_item, hb]

/-- Witness for the amended C2: a concrete frame with a missing label
makes get_table_data fail and the enclosing item return None. -/
theorem get_table_data_propagates_failure_check :
    get_table_data frameNoLabel "ProductName：" = .error .timeout ∧
    scrape_item itemEnvNoLabel = .ok none :=
  ⟨get_table_data_propagates_failure.2.1 frameNoLabel "ProductName：" .timeout rfl,
   get_table_data_propagates_failure.2.2 itemEnvNoLabel .timeout rfl rfl rfl⟩

/-- Claim C10: next_page converts every raise of its try body into the
return value False with current_page unchanged, so a paginator fault is
indistinguishable from end of run. -/
theorem next_page_catches_all_faults (cur : Int) (env : NextEnv) (e : Err) (clicked : Bool)
    (h : next_page_run cur env = (.error e, clicked)) :
    next_page cur env = ((false, cur), clicked) := by
  simp [next_page, h]

/-- Witness for C10: a pagination-region wait that raises makes
next_page answer False without a click. -/
theorem next_page_catches_all_faults_check :
    next_page 1 envPagFault = ((false, 1), false) :=
  next_page_catches_all_faults 1 envPagFault .timeout false rfl

/-- Every next_page call either fails leaving current_page unchanged, or
succeeds with the parsed indicator value, which strictly exceeds the old
current_page, after a click. -/
theorem next_page_shape (cur : Int) (env : NextEnv) :
    (next_page cur env).1 = (false, cur) ∨
    (∃ txt n, env.queryIndicator = .ok (some txt) ∧ parsePageNum txt = some n ∧
      cur < n ∧ (next_page cur env).1 = (true, n) ∧ (next_page cur env).2 = true) := by
  rcases env with ⟨wp, nl, ck, wl, qi⟩
  rcases wp with e | u
  · left; rfl
  · rcases nl with e | ls
    · left; rfl
    · cases ls with
      | absent => left; rfl
      | disabled => left; rfl
      | enabled =>
        rcases ck with e | u2
        · left; rfl
        · rcases wl with e | u3
          · left; rfl
          · rcases qi with e | oi
            · left; rfl
            · rcases oi with _ | txt
              · left; rfl
              · rcases hp : parsePageNum txt with _ | n
                · left
                  simp [next_page, next_page_run, queryNextMatches, hp]
                · by_cases hn : n > cur
                  · right
                    exact ⟨txt, n, rfl, hp, hn,
                      by simp [next_page, next_page_run, queryNextMatches, hp, hn],
                      by simp [next_page, next_page_run, queryNextMatches, hp, hn]⟩
                  · left
                    simp [next_page, next_page_run, queryNextMatches, hp, hn]

/-- Claim C5: next_page answers False, without clicking, whenever the
next-page control is absent or class-marked disabled, and answers True
only when the active-page indicator parsed to a value strictly above the
old current_page, which becomes the new current_page. -/
theorem next_page_disabled_and_strict_increase (cur : Int) (env : NextEnv) :
    ((env.nextLink = .ok .absent ∨ env.nextLink = .ok .disabled) →
        next_page cur env = ((false, cur), false)) ∧
    ((next_page cur env).1.1 = true →
        ∃ txt n, env.queryIndicator = .ok (some txt) ∧ parsePageNum txt = some n ∧
          cur < n ∧ (next_page cur env).1.2 = n) := by
  constructor
  · intro h
    rcases hw : env.waitPagination with e | u
    · simp [next_page, next_page_run, hw]
    · rcases h with h | h <;> simp [next_page, next_page_run, hw, h, queryNextMatches]
  · intro htrue
    rcases next_page_shape cur env with h | ⟨txt, n, hq, hp, hn, h1, h2⟩
    · rw [h] at htrue
      exact absurd htrue (by simp)
    · exact ⟨txt, n, hq, hp, hn, by rw [h1]⟩

/-- Witness for C5: a disabled next-page control makes next_page answer
False with no click and current_page kept at 5. -/
theorem next_page_disabled_check :
    next_page 5 envDisabled = ((false, 5), false) :=
  (next_page_disabled_and_strict_increase 5 envDisabled).1 (Or.inr rfl)

/-- Counterexample to C6 as stated: when the active-page indicator reads
3 while current_page is 1, the advance is reported successful and
current_page jumps to 3, an increase of 2, not exactly 1. -/
theorem current_page_jump_counterexample :
    next_page 1 envJump = ((true, 3), true) ∧ (3 : Int) ≠ 1 + 1 := by
  constructor
  · rfl
  · decide

/-- Claim C6 (amended): current_page starts at 1, is left unchanged by a
failed advance, and strictly increases on every successful advance,
being set to the value the indicator reports, not necessarily old + 1. -/
theorem current_page_start_and_strict_mono :
    initRunState.current_page = 1 ∧
    ∀ (cur : Int) (env : NextEnv),
      ((next_page cur env).1.1 = false → (next_page cur env).1.2 = cur) ∧
      ((next_page cur env).1.1 = true → cur < (next_page cur env).1.2) := by
  refine ⟨rfl, fun cur env => ⟨?_, ?_⟩⟩
  · intro hf
    rcases next_page_shape cur env with h | ⟨txt, n, hq, hp, hn, h1, h2⟩
    · rw [h]
    · rw [h1] at hf
      exact absurd hf (by simp)
  · intro ht
    rcases next_page_shape cur env with h | ⟨txt, n, hq, hp, hn, h1, h2⟩
    · rw [h] at ht
      exact absurd ht (by simp)
    · rw [h1]
      exact hn

/-- Witness for the amended C6: the jump environment advances
successfully and current_page strictly increases. -/
theorem current_page_strict_mono_check :
    (next_page 1 envJump).1.1 = true ∧ 1 < (next_page 1 envJump).1.2 :=
  ⟨rfl, (current_page_start_and_strict_mono.2 1 envJump).2 rfl⟩

/-- On an ingredient table whose reads all succeed, the loop keeps
exactly the two-cell rows, as trimmed pairs, in order. -/
theorem ingredient_loop_pure (m : List (List String)) :
    ingredient_loop (pureRows m) = .ok (m.filterMap rowPair) := by
  induction m with
  | nil => rfl
  | cons cs rest ih =>
    rcases cs with _ | ⟨a, cs2⟩
    · simpa [pureRows, ingredient_loop, rowPair] using ih
    · rcases cs2 with _ | ⟨b, cs3⟩
      · simpa [pureRows, ingredient_loop, rowPair] using ih
      · rcases cs3 with _ | ⟨c, t⟩
        · simp only [pureRows] at ih
          simp [pureRows, ingredient_loop, rowPair, ih]
        · simpa [pureRows, ingredient_loop, rowPair] using ih

/-- Claim C7: the ingredient parse skips the two header rows, emits one
trimmed {ingredient, content} pair per remaining row exactly when the
row has exactly two cells, skipping other rows, and returns the empty
sequence, not a fault, when the table has only header rows. -/
theorem extract_ingredients_headers_and_pairs :
    (∀ l : List (List String),
        extract_ingredients (pureRows l) = .ok ((l.drop 2).filterMap rowPair)) ∧
    (∀ rows : List RowE, rows.length ≤ 2 → extract_ingredients rows = .ok []) := by
  constructor
  · intro l
    have hdrop : (pureRows l).drop 2 = pureRows (l.drop 2) := by
      simp [pureRows, List.map_drop]
    rw [extract_ingredients, hdrop, ingredient_loop_pure]
  · intro rows h
    rw [extract_ingredients, List.drop_eq_nil_of_le h]
    rfl

/-- Witness for C7: a table holding only its two header rows parses to
the empty ingredient sequence. -/
theorem extract_ingredients_headers_check :
    (pureRows [["Ingredient English Name", "CAS", "Content"], ["header"]]).length ≤ 2 ∧
    extract_ingredients (pureRows [["Ingredient English Name", "CAS", "Content"], ["header"]]) = .ok [] :=
  ⟨by simp [pureRows],
   extract_ingredients_headers_and_pairs.2 _ (by simp [pureRows])⟩

/-- The page-scraper loop over any position list stops at the first
absent row link and keeps exactly the successful items of the present
prefix, counting them. -/
theorem scrape_page_loop_eq (env : PageEnv) (l : List Nat) :
    scrape_page_loop env l =
      .ok (((l.takeWhile env.rowPresent).filterMap (succAt env)).length,
           (l.takeWhile env.rowPresent).filterMap (succAt env)) := by
  induction l with
  | nil => rfl
  | cons i rest ih =>
    by_cases hp : env.rowPresent i
    · rcases hd : itemRes (env.itemEnv i) with _ | d
      · simp [scrape_page_loop, hp, scrape_item_eq, succAt, hd, ih,
          List.takeWhile_cons, List.filterMap_cons]
      · simp [scrape_page_loop, hp, scrape_item_eq, succAt, hd, ih,
          List.takeWhile_cons, List.filterMap_cons]
    · simp [scrape_page_loop, hp, List.takeWhile_cons]

/-- scrape_page never raises: it returns the successful records of the
present prefix of the row window together with their count. -/
theorem scrape_page_eq (env : PageEnv) :
    scrape_page env = .ok ((pageSuccess env).length, pageSuccess env) := by
  rw [scrape_page, scrape_page_loop_eq]
  rfl

/-- Claim C4: scrape_page scans only the fixed window of row positions 2
through 21, stops at the first position whose row link is absent (so it
never scans past it even if later rows exist), skips rows whose item
scrape fails while continuing, and returns the successful records with a
count equal to their number. -/
theorem scrape_page_window_and_stop (env : PageEnv) :
    scrape_page env = .ok ((pageSuccess env).length, pageSuccess env) ∧
    (∀ i ∈ presentRows env, 2 ≤ i ∧ i ≤ 21) ∧
    pageSuccess env = (presentRows env).filterMap (succAt env) := by
  refine ⟨scrape_page_eq env, ?_, rfl⟩
  intro i hi
  have hmem : i ∈ List.range' 2 20 :=
    (List.takeWhile_sublist env.rowPresent).mem hi
  have := List.mem_range'_1.mp hmem
  omega

/-- Witness for C4: on the last-page scenario with positions 2 through 4
populated and 5 absent, scrape_page stops at position 5 and returns
count 3; the reached positions stay within the window. -/
theorem scrape_page_window_and_stop_check :
    (2 ∈ presentRows pageEnvScenario ∧ 2 ≤ 2 ∧ 2 ≤ 21) ∧
    scrape_page pageEnvScenario =
      .ok ((pageSuccess pageEnvScenario).length, pageSuccess pageEnvScenario) ∧
    presentRows pageEnvScenario = [2, 3, 4] ∧
    (pageSuccess pageEnvScenario).length = 3 :=
  ⟨⟨by decide, (scrape_page_window_and_stop pageEnvScenario).2.1 2 (by decide)⟩,
   (scrape_page_window_and_stop pageEnvScenario).1, by decide, by rfl⟩

/-- The invariant of the run loop: whenever total_items_scraped equals
the length of all_data at a page boundary, it still does at every later
boundary and when the loop exits. -/
theorem run_loop_inv (steps : Nat → RunEnvStep) :
    ∀ (fuel k : Nat) (st st' : RunState),
      st.total_items_scraped = st.allData.length →
      run_loop steps fuel k st = some (.ok st') →
      st'.total_items_scraped = st'.allData.length := by
  intro fuel
  induction fuel with
  | zero =>
    intro k st st' h hrun
    simp [run_loop] at hrun
  | succ n ih =>
    intro k st st' h hrun
    rw [run_loop, scrape_page_eq] at hrun
    rcases hnp : next_page st.current_page (steps k).nextEnv with ⟨⟨b, cur2⟩, cl⟩
    rw [hnp] at hrun
    cases b
    · simp only [Option.some.injEq, Except.ok.injEq] at hrun
      subst hrun
      simp [h, List.length_append]
    · exact ih (k + 1) _ st' (by simp [h, List.length_append]) hrun

/-- run either hits the fuel bound, or propagates an error having exited
the playwright block without the explicit close, or returns the loop
result after the explicit browser.close(). -/
theorem run_cases (env : RunEnv) :
    run env = none ∨
    (∃ e, run env = some (.error e, { browserCloseCalled := false, playwrightExited := true })) ∨
    (∃ st, run_loop env.steps env.fuel 0 initRunState = some (.ok st) ∧
      run env = some (.ok (st.allData, st),
        { browserCloseCalled := true, playwrightExited := true })) := by
  unfold run
  rcases hg : env.gotoRes with e | u
  · exact Or.inr (Or.inl ⟨e, rfl⟩)
  · rcases hs : env.searchRes with e | u2
    · exact Or.inr (Or.inl ⟨e, rfl⟩)
    · rcases hl : run_loop env.steps env.fuel 0 initRunState with _ | r
      · left
        rfl
      · rcases r with e | st
        · exact Or.inr (Or.inl ⟨e, rfl⟩)
        · exact Or.inr (Or.inr ⟨st, rfl, rfl⟩)

/-- Claim C1: at every page boundary the running total equals the length
of the accumulated records, and the total of a completed run equals the
number of returned records. -/
theorem run_total_matches_records :
    (∀ (steps : Nat → RunEnvStep) (fuel k : Nat) (st st' : RunState),
        st.total_items_scraped = st.allData.length →
        run_loop steps fuel k st = some (.ok st') →
        st'.total_items_scraped = st'.allData.length) ∧
    (∀ (env : RunEnv) (recs : List ResultRecord) (st : RunState) (tr : RunTrace),
        run env = some (.ok (recs, st), tr) →
        recs = st.allData ∧ st.total_items_scraped = recs.length) := by
  constructor
  · exact run_loop_inv
  · intro env recs st tr h
    rcases run_cases env with hc | ⟨e, hc⟩ | ⟨st0, hl, hc⟩
    · rw [h] at hc
      exact absurd hc (by simp)
    · rw [h] at hc
      simp only [Option.some.injEq, Prod.mk.injEq] at hc
      exact absurd hc.1 (by simp)
    · rw [h] at hc
      simp only [Option.some.injEq, Prod.mk.injEq, Except.ok.injEq] at hc
      obtain ⟨⟨h1, h2⟩, _⟩ := hc
      have hinv : st0.total_items_scraped = st0.allData.length :=
        run_loop_inv env.steps env.fuel 0 initRunState st0 rfl hl
      subst h2
      exact ⟨h1, by rw [h1]; exact hinv⟩

/-- Witness for C1: the one-page terminating run returns no records and
a total of zero. -/
theorem run_total_matches_records_check :
    ([] : List ResultRecord) = stRunEnd.allData ∧
    stRunEnd.total_items_scraped = List.length ([] : List ResultRecord) :=
  run_total_matches_records.2 envRunEnd [] stRunEnd
    { browserCloseCalled := true, playwrightExited := true } rfl

/-- Claim C8: the run-controller loop of the code coincides with the
loop the spec describes: per iteration it scrapes the current page,
appends the records, adds the count to the running total, notifies
progress exactly once with the message Scraped page {current_page},
total items: {total}, then calls the paginator, terminating exactly when
advance returns false and yielding the accumulated records. -/
theorem run_loop_matches_spec (steps : Nat → RunEnvStep) (fuel : Nat) :
    ∀ (k : Nat) (cur : Int) (total : Nat) (recs : List ResultRecord) (msgs : List String),
      run_loop steps fuel k
        { total_items_scraped := total, allData := recs, current_page := cur, msgs := msgs } =
      (runLoopSpec steps fuel k cur total recs msgs).map
        (Except.map fun r =>
          { total_items_scraped := r.2.1, allData := r.1,
            current_page := r.2.2.1, msgs := r.2.2.2 }) := by
  induction fuel with
  | zero =>
    intro k cur total recs msgs
    rfl
  | succ n ih =>
    intro k cur total recs msgs
    rw [run_loop, runLoopSpec, scrape_page_eq]
    rcases hnp : next_page cur (steps k).nextEnv with ⟨⟨b, cur2⟩, cl⟩
    cases b
    · simp [hnp, progressMsg, Except.map]
    · simp only [hnp, progressMsg]
      exact ih (k + 1) cur2 (total + (pageSuccess (steps k).pageEnv).length)
        (recs ++ pageSuccess (steps k).pageEnv)
        (msgs ++ ["Scraped page " ++ toString cur ++ ", total items: " ++
          toString (total + (pageSuccess (steps k).pageEnv).length)])

/-- Claim C9: every terminating path of run releases the browser before
control returns: the normal path runs the explicit browser.close(), and
every path, the failure ones included, exits the playwright block, whose
teardown closes the launched browser. -/
theorem run_releases_browser (env : RunEnv)
    (res : Except Err (List ResultRecord × RunState)) (tr : RunTrace)
    (h : run env = some (res, tr)) :
    browserReleased tr = true ∧
    (∀ recs st, res = .ok (recs, st) → tr.browserCloseCalled = true) := by
  rcases run_cases env with hc | ⟨e, hc⟩ | ⟨st0, hl, hc⟩
  · rw [h] at hc
    exact absurd hc (by simp)
  · rw [h] at hc
    simp only [Option.some.injEq, Prod.mk.injEq] at hc
    obtain ⟨h1, h2⟩ := hc
    subst h2
    refine ⟨rfl, ?_⟩
    intro recs st hres
    rw [hres] at h1
    exact absurd h1 (by simp)
  · rw [h] at hc
    simp only [Option.some.injEq, Prod.mk.injEq] at hc
    obtain ⟨h1, h2⟩ := hc
    subst h2
    exact ⟨rfl, fun recs st hres => rfl⟩

/-- Witness for C9: on the one-page terminating run the trace shows both
the explicit close and the playwright-block exit, so the browser is
released. -/
theorem run_releases_browser_check :
    browserReleased { browserCloseCalled := true, playwrightExited := true } = true ∧
    (∀ (recs : List ResultRecord) (st : RunState),
      (Except.ok (([] : List ResultRecord), stRunEnd) :
          Except Err (List ResultRecord × RunState)) = .ok (recs, st) →
      ({ browserCloseCalled := true, playwrightExited := true } : RunTrace).browserCloseCalled = true) :=
  run_releases_browser envRunEnd (.ok ([], stRunEnd))
    { browserCloseCalled := true, playwrightExited := true } rfl

end PesticideScraper
